import Mathlib

/-!
Shallow embedding of the NovelNotify update-detection and notification
pipeline, translated from the Python sources:
  novel_notify/database/models.py   (data model, to_dict / from_dict)
  novel_notify/database/__init__.py (DatabaseManager operations)
  novel_notify/scraper/__init__.py  (WebNovelScraper extraction)
  novel_notify/bot/scheduler.py     (UpdateScheduler)
  novel_notify/utils/__init__.py    (extract_novel_id_from_url)

Python floats (timestamps) are modelled as rationals; they are only
stored and compared, never computed with.  Strings are Lean strings.
A BeautifulSoup document is modelled as a record of the query results
for each CSS selector the scraper issues; bs4 Tag objects are always
truthy (Tag defines a constant-true bool conversion), so a select_one
result is modelled as an Option of an element record.
-/

/-- Python str.isspace() per character, the set str.strip() removes:
U+0009..U+000D, U+001C..U+001F, space, U+0085, U+00A0, U+1680,
U+2000..U+200A, U+2028, U+2029, U+202F, U+205F and U+3000. -/
def pyWhitespace (c : Char) : Bool :=
  let n := c.toNat
  (0x09 ≤ n && n ≤ 0x0D) || (0x1C ≤ n && n ≤ 0x1F) || n == 0x20 ||
    n == 0x85 || n == 0xA0 || n == 0x1680 || (0x2000 ≤ n && n ≤ 0x200A) ||
    n == 0x2028 || n == 0x2029 || n == 0x202F || n == 0x205F || n == 0x3000

/-- Python str.strip(): remove leading and trailing whitespace. -/
def pyStrip (s : String) : String :=
  String.mk (((s.toList.dropWhile pyWhitespace).reverse.dropWhile pyWhitespace).reverse)

/-- Value of a list of ASCII digit characters, most significant first. -/
def digitsToNat (cs : List Char) : Nat :=
  cs.foldl (fun acc c => acc * 10 + (c.toNat - 48)) 0

/-- Python int(s) on an already stripped string: optional sign then digits,
None (exception) otherwise.  (Python also accepts underscore digit
grouping and non-ASCII digits; those are not modelled.) -/
def pyInt (s : String) : Option Int :=
  match s.toList with
  | [] => none
  | '+' :: rest =>
    if rest ≠ [] ∧ rest.all Char.isDigit then some (Int.ofNat (digitsToNat rest)) else none
  | '-' :: rest =>
    if rest ≠ [] ∧ rest.all Char.isDigit then some (-(Int.ofNat (digitsToNat rest))) else none
  | cs =>
    if cs.all Char.isDigit then some (Int.ofNat (digitsToNat cs)) else none

/-- Closed codepoint interval test. -/
def inCodeRange (n lo hi : Nat) : Bool :=
  decide (lo ≤ n) && decide (n ≤ hi)

/-- Python str.isdigit() per character: true for codepoints with Unicode
Numeric_Type Decimal (general category Nd) or Digit, from the Unicode
15.0 tables CPython 3.12 ships (earlier interpreters use slightly older
tables lacking only the newest scripts). -/
def pyCharIsDigit (c : Char) : Bool :=
  let n := c.toNat
  -- Numeric_Type=Decimal: the Nd ranges (decimal digit runs per script)
  inCodeRange n 0x0030 0x0039 || inCodeRange n 0x0660 0x0669 ||
  inCodeRange n 0x06F0 0x06F9 || inCodeRange n 0x07C0 0x07C9 ||
  inCodeRange n 0x0966 0x096F || inCodeRange n 0x09E6 0x09EF ||
  inCodeRange n 0x0A66 0x0A6F || inCodeRange n 0x0AE6 0x0AEF ||
  inCodeRange n 0x0B66 0x0B6F || inCodeRange n 0x0BE6 0x0BEF ||
  inCodeRange n 0x0C66 0x0C6F || inCodeRange n 0x0CE6 0x0CEF ||
  inCodeRange n 0x0D66 0x0D6F || inCodeRange n 0x0DE6 0x0DEF ||
  inCodeRange n 0x0E50 0x0E59 || inCodeRange n 0x0ED0 0x0ED9 ||
  inCodeRange n 0x0F20 0x0F29 || inCodeRange n 0x1040 0x1049 ||
  inCodeRange n 0x1090 0x1099 || inCodeRange n 0x17E0 0x17E9 ||
  inCodeRange n 0x1810 0x1819 || inCodeRange n 0x1946 0x194F ||
  inCodeRange n 0x19D0 0x19D9 || inCodeRange n 0x1A80 0x1A89 ||
  inCodeRange n 0x1A90 0x1A99 || inCodeRange n 0x1B50 0x1B59 ||
  inCodeRange n 0x1BB0 0x1BB9 || inCodeRange n 0x1C40 0x1C49 ||
  inCodeRange n 0x1C50 0x1C59 || inCodeRange n 0xA620 0xA629 ||
  inCodeRange n 0xA8D0 0xA8D9 || inCodeRange n 0xA900 0xA909 ||
  inCodeRange n 0xA9D0 0xA9D9 || inCodeRange n 0xA9F0 0xA9F9 ||
  inCodeRange n 0xAA50 0xAA59 || inCodeRange n 0xABF0 0xABF9 ||
  inCodeRange n 0xFF10 0xFF19 || inCodeRange n 0x104A0 0x104A9 ||
  inCodeRange n 0x10D30 0x10D39 || inCodeRange n 0x11066 0x1106F ||
  inCodeRange n 0x110F0 0x110F9 || inCodeRange n 0x11136 0x1113F ||
  inCodeRange n 0x111D0 0x111D9 || inCodeRange n 0x112F0 0x112F9 ||
  inCodeRange n 0x11450 0x11459 || inCodeRange n 0x114D0 0x114D9 ||
  inCodeRange n 0x11650 0x11659 || inCodeRange n 0x116C0 0x116C9 ||
  inCodeRange n 0x11730 0x11739 || inCodeRange n 0x118E0 0x118E9 ||
  inCodeRange n 0x11950 0x11959 || inCodeRange n 0x11C50 0x11C59 ||
  inCodeRange n 0x11D50 0x11D59 || inCodeRange n 0x11DA0 0x11DA9 ||
  inCodeRange n 0x11F50 0x11F59 || inCodeRange n 0x16A60 0x16A69 ||
  inCodeRange n 0x16AC0 0x16AC9 || inCodeRange n 0x16B50 0x16B59 ||
  inCodeRange n 0x1D7CE 0x1D7FF || inCodeRange n 0x1E140 0x1E149 ||
  inCodeRange n 0x1E2F0 0x1E2F9 || inCodeRange n 0x1E4F0 0x1E4F9 ||
  inCodeRange n 0x1E950 0x1E959 || inCodeRange n 0x1FBF0 0x1FBF9 ||
  -- Numeric_Type=Digit: digit-valued characters outside category Nd
  inCodeRange n 0x00B2 0x00B3 || n == 0x00B9 ||
  inCodeRange n 0x1369 0x1371 || n == 0x19DA || n == 0x2070 ||
  inCodeRange n 0x2074 0x2079 || inCodeRange n 0x2080 0x2089 ||
  inCodeRange n 0x2460 0x2468 || inCodeRange n 0x2474 0x247C ||
  inCodeRange n 0x2488 0x2490 || n == 0x24EA ||
  inCodeRange n 0x24F5 0x24FD || n == 0x24FF ||
  inCodeRange n 0x2776 0x277E || inCodeRange n 0x2780 0x2788 ||
  inCodeRange n 0x278A 0x2792 || inCodeRange n 0x10A40 0x10A43 ||
  inCodeRange n 0x10E60 0x10E68 || inCodeRange n 0x11052 0x1105A ||
  inCodeRange n 0x1F100 0x1F10A

/-- Python str.isdigit(): nonempty and every character is a digit. -/
def pyIsDigitStr (s : String) : Bool :=
  !s.isEmpty && s.toList.all pyCharIsDigit

/-- models.py Chapter dataclass. -/
structure Chapter where
  chapter_number : Option Int
  title : String
  url : String
  published : String
  is_locked : Bool
deriving DecidableEq

/-- models.py Volume dataclass. -/
structure Volume where
  volume_title : String
  chapters : List Chapter
deriving DecidableEq

/-- models.py NovelMetadata dataclass. -/
structure NovelMetadata where
  novel_id : String
  novel_title : String
  author : String
  cover_url : String
  latest_chapter : Chapter
  volumes : List Volume
  last_updated : ℚ
deriving DecidableEq

/-- models.py UserSubscription dataclass. -/
structure UserSubscription where
  user_id : Int
  novel_id : String
  added_at : ℚ
  last_notified_chapter : Option String
  notifications_enabled : Bool
deriving DecidableEq

/-- A Python value as produced and consumed by the to_dict / from_dict
methods: None, bool, int, float, str, list, dict (string keys). -/
inductive PyVal where
  | pynull : PyVal
  | pybool : Bool → PyVal
  | pyint : Int → PyVal
  | pyfloat : ℚ → PyVal
  | pystr : String → PyVal
  | pylist : List PyVal → PyVal
  | pydict : List (String × PyVal) → PyVal

/-- dict lookup: some v when the key is present, none when absent. -/
def pyLookup (kvs : List (String × PyVal)) (k : String) : Option PyVal :=
  (kvs.find? fun p => p.1 == k).map Prod.snd

/-- Read a str-typed value. -/
def pyAsStr : PyVal → Option String
  | .pystr s => some s
  | _ => none

/-- Read a bool-typed value. -/
def pyAsBool : PyVal → Option Bool
  | .pybool b => some b
  | _ => none

/-- Read a float-typed value. -/
def pyAsFloat : PyVal → Option ℚ
  | .pyfloat q => some q
  | _ => none

/-- A Python list comprehension over a fallible element conversion:
fails as a whole when any element conversion raises. -/
def optionMapList (f : α → Option β) : List α → Option (List β)
  | [] => some []
  | x :: xs => (f x).bind fun y => (optionMapList f xs).map (y :: ·)

/-- Chapter.to_dict. -/
def Chapter.toDict (c : Chapter) : PyVal :=
  .pydict
    [("chapter_number", match c.chapter_number with | some n => .pyint n | none => .pynull),
     ("title", .pystr c.title),
     ("url", .pystr c.url),
     ("published", .pystr c.published),
     ("is_locked", .pybool c.is_locked)]

/-- Chapter.from_dict: data.get for chapter_number and is_locked (with
defaults), indexing (raising on a missing key) for the rest. -/
def Chapter.fromDict (v : PyVal) : Option Chapter :=
  match v with
  | .pydict d =>
    (match (pyLookup d "chapter_number").getD .pynull with
     | .pynull => some Option.none
     | .pyint n => some (Option.some n)
     | _ => none).bind fun chapter_number =>
    ((pyLookup d "title").bind pyAsStr).bind fun title =>
    ((pyLookup d "url").bind pyAsStr).bind fun url =>
    ((pyLookup d "published").bind pyAsStr).bind fun published =>
    (pyAsBool ((pyLookup d "is_locked").getD (.pybool false))).bind fun is_locked =>
    some ⟨chapter_number, title, url, published, is_locked⟩
  | _ => none

/-- Volume.to_dict. -/
def Volume.toDict (v : Volume) : PyVal :=
  .pydict
    [("volume_title", .pystr v.volume_title),
     ("chapters", .pylist (v.chapters.map Chapter.toDict))]

/-- Volume.from_dict: chapters via data.get with default empty list. -/
def Volume.fromDict (v : PyVal) : Option Volume :=
  match v with
  | .pydict d =>
    ((pyLookup d "volume_title").bind pyAsStr).bind fun volume_title =>
    (match (pyLookup d "chapters").getD (.pylist []) with
     | .pylist xs => optionMapList Chapter.fromDict xs
     | _ => none).bind fun chapters =>
    some ⟨volume_title, chapters⟩
  | _ => none

/-- NovelMetadata.to_dict. -/
def NovelMetadata.toDict (m : NovelMetadata) : PyVal :=
  .pydict
    [("novel_id", .pystr m.novel_id),
     ("novel_title", .pystr m.novel_title),
     ("author", .pystr m.author),
     ("cover_url", .pystr m.cover_url),
     ("latest_chapter", m.latest_chapter.toDict),
     ("volumes", .pylist (m.volumes.map Volume.toDict)),
     ("last_updated", .pyfloat m.last_updated)]

/-- NovelMetadata.from_dict; `now` models the time.time() default used
when the last_updated key is absent. -/
def NovelMetadata.fromDict (now : ℚ) (v : PyVal) : Option NovelMetadata :=
  match v with
  | .pydict d =>
    ((pyLookup d "novel_id").bind pyAsStr).bind fun novel_id =>
    ((pyLookup d "novel_title").bind pyAsStr).bind fun novel_title =>
    ((pyLookup d "author").bind pyAsStr).bind fun author =>
    ((pyLookup d "cover_url").bind pyAsStr).bind fun cover_url =>
    ((pyLookup d "latest_chapter").bind Chapter.fromDict).bind fun latest_chapter =>
    (match (pyLookup d "volumes").getD (.pylist []) with
     | .pylist xs => optionMapList Volume.fromDict xs
     | _ => none).bind fun volumes =>
    (pyAsFloat ((pyLookup d "last_updated").getD (.pyfloat now))).bind fun last_updated =>
    some ⟨novel_id, novel_title, author, cover_url, latest_chapter, volumes, last_updated⟩
  | _ => none

/-! ## Scraper document model

A fetched document is modelled by the results of the CSS queries the
scraper issues.  select_one gives an Option of an element; a bs4 Tag is
always truthy, so a Python `if element:` test is modelled as isSome.
get_text with strip=True is modelled as stripping the elements text. -/

/-- A text-bearing element: its get_text contents before stripping. -/
structure SelElem where
  text : String
deriving DecidableEq

/-- get_text(strip=True). -/
def getTextStrip (e : SelElem) : String := pyStrip e.text

/-- An img element with an optional src attribute (absent key modelled
as none; the attribute may also be the empty string). -/
structure ImgElem where
  src : Option String
deriving DecidableEq

/-- An anchor: its text, and its optional href attribute. -/
structure AnchorElem where
  text : String
  href : Option String
deriving DecidableEq

/-- The container holding the latest-chapter teaser (.det-con-intro or
the alternative selectors), with the sub-queries the code performs. -/
structure LatestContainer where
  lstChapterAnchor : Option AnchorElem
  anyAnchor : Option AnchorElem
  smallCS : Option SelElem
  smallAny : Option SelElem
deriving DecidableEq

/-- A chapter list anchor with the sub-queries of _extract_single_chapter. -/
structure ChapterAnchor where
  numElem : Option SelElem
  strongElem : Option SelElem
  text : String
  href : Option String
  smallElem : Option SelElem
  hasLockIcon : Bool
deriving DecidableEq

/-- A chapter list item: its optional anchor. -/
structure ChapterLI where
  anchor : Option ChapterAnchor
deriving DecidableEq

/-- A volume container: title queries and both chapter-item queries. -/
structure VolumeElem where
  h4 : Option SelElem
  fallbackTitle : Option SelElem
  chapterItems : List ChapterLI
  chapterItemsFallback : List ChapterLI
deriving DecidableEq

/-- The whole parsed document, as the scraper queries it. -/
structure Soup where
  titlePrimary : Option SelElem
  titleFallback : Option SelElem
  authorPrimary : Option SelElem
  authorFallback : Option SelElem
  coverPrimary : Option ImgElem
  coverFallback : Option ImgElem
  detConIntro : Option LatestContainer
  altLatestContainer : Option LatestContainer
  firstChapterAnchor : Option AnchorElem
  volumeItems : List VolumeElem
  chapterItems : List ChapterLI
  chapterItemsFallback : List ChapterLI
deriving DecidableEq

/-- WebNovelScraper._extract_novel_title. -/
def _extract_novel_title (soup : Soup) : String :=
  match soup.titlePrimary with
  | some e => getTextStrip e
  | none =>
    match soup.titleFallback with
    | some e => getTextStrip e
    | none => "Untitled"

/-- WebNovelScraper._extract_author. -/
def _extract_author (soup : Soup) : String :=
  match soup.authorPrimary with
  | some e => getTextStrip e
  | none =>
    match soup.authorFallback with
    | some e => getTextStrip e
    | none => "Unknown Author"

/-- Models the Python test `cover_element and cover_element.get('src')`:
some src exactly when the element is present and its src attribute is
present and nonempty. -/
def srcTruthy : Option ImgElem → Option String
  | some e =>
    match e.src with
    | some s => if s = "" then none else some s
    | none => none
  | none => none

/-- WebNovelScraper._extract_cover_url. -/
def _extract_cover_url (soup : Soup) : String :=
  match srcTruthy soup.coverPrimary with
  | some s => s
  | none =>
    match srcTruthy soup.coverFallback with
    | some s => s
    | none => ""

/-- WebNovelScraper._extract_latest_chapter.  The first-chapter fallback
runs when no container was found or the found container has no anchor. -/
def _extract_latest_chapter (soup : Soup) : Option Chapter :=
  let container :=
    match soup.detConIntro with
    | some c => some c
    | none => soup.altLatestContainer
  let fromContainer : Option Chapter :=
    match container with
    | some c =>
      let anchor :=
        match c.lstChapterAnchor with
        | some a => some a
        | none => c.anyAnchor
      match anchor with
      | some a =>
        let published :=
          match (match c.smallCS with | some e => some e | none => c.smallAny) with
          | some e => getTextStrip e
          | none => "Unknown"
        some ⟨none, pyStrip a.text, a.href.getD "", published, false⟩
      | none => none
    | none => none
  match fromContainer with
  | some ch => some ch
  | none =>
    match soup.firstChapterAnchor with
    | some a => some ⟨none, pyStrip a.text, a.href.getD "", "Unknown", false⟩
    | none => none

/-- WebNovelScraper._extract_single_chapter. -/
def _extract_single_chapter (li : ChapterLI) : Option Chapter :=
  match li.anchor with
  | none => none
  | some a =>
    let chapter_number :=
      match a.numElem with
      | some e => pyInt (getTextStrip e)
      | none => none
    let title :=
      match a.strongElem with
      | some e => getTextStrip e
      | none => pyStrip a.text
    let url := a.href.getD ""
    let published :=
      match a.smallElem with
      | some e => getTextStrip e
      | none => "Unknown Date"
    some ⟨chapter_number, title, url, published, a.hasLockIcon⟩

/-- WebNovelScraper._extract_chapters_from_container: the fallback item
query is used when the primary one yields no items. -/
def _extract_chapters_from_container (primary fallback : List ChapterLI) : List Chapter :=
  let items := if primary.isEmpty then fallback else primary
  items.filterMap _extract_single_chapter

/-- WebNovelScraper._extract_volume_title. -/
def _extract_volume_title (v : VolumeElem) : String :=
  match v.h4 with
  | some e => getTextStrip e
  | none =>
    match v.fallbackTitle with
    | some e => getTextStrip e
    | none => "Untitled Volume"

/-- WebNovelScraper._extract_volumes_and_chapters: volume containers when
present (dropping volumes with no chapters), else one synthetic volume
from the top-level chapter items when any chapter was found. -/
def _extract_volumes_and_chapters (soup : Soup) : List Volume :=
  if soup.volumeItems.isEmpty then
    let chapters := _extract_chapters_from_container soup.chapterItems soup.chapterItemsFallback
    if chapters.isEmpty then [] else [⟨"Main Volume", chapters⟩]
  else
    soup.volumeItems.filterMap fun v =>
      let chapters := _extract_chapters_from_container v.chapterItems v.chapterItemsFallback
      if chapters.isEmpty then none else some ⟨_extract_volume_title v, chapters⟩

/-- WebNovelScraper.scrape_novel_metadata on an already fetched and
parsed document; `now` models time.time().  Returns none (extraction
failure) when the title is falsy or no latest chapter was found. -/
def scrape_novel_metadata (novel_id : String) (now : ℚ) (soup : Soup) : Option NovelMetadata :=
  let novel_title := _extract_novel_title soup
  let author := _extract_author soup
  let cover_url := _extract_cover_url soup
  let latest_chapter := _extract_latest_chapter soup
  let volumes := _extract_volumes_and_chapters soup
  if novel_title = "" then none
  else
    match latest_chapter with
    | none => none
    | some lc => some ⟨novel_id, novel_title, author, cover_url, lc, volumes, now⟩

/-! ## Database model

The novels table keys rows by novel_id; a row holds the metadata (the
table stores its to_dict JSON; by the round-trip lemmas below, storing
the typed value is equivalent), the last_updated column and the
created_at column.  The subscriptions table is a row list with a UNIQUE
constraint on the pair user_id, novel_id. -/

/-- A row of the novels table. -/
structure NovelRow where
  metadata : NovelMetadata
  last_updated : ℚ
  created_at : ℚ
deriving DecidableEq

/-- The novels table as a map from novel_id to its row. -/
def NovelsTable : Type := String → Option NovelRow

/-- DatabaseManager.save_novel_metadata: INSERT OR REPLACE keyed on
metadata.novel_id, with created_at = COALESCE of the existing rows
created_at and the current time `t`. -/
def save_novel_metadata (tbl : NovelsTable) (m : NovelMetadata) (t : ℚ) : NovelsTable :=
  fun id =>
    if id = m.novel_id then
      some
        { metadata := m
          last_updated := t
          created_at :=
            match tbl m.novel_id with
            | some r => r.created_at
            | none => t }
    else tbl id

/-- The mutable store the scheduler works against. -/
structure DB where
  novels : NovelsTable
  subs : List UserSubscription

/-- DatabaseManager.get_novel_metadata. -/
def get_novel_metadata (db : DB) (novel_id : String) : Option NovelMetadata :=
  (db.novels novel_id).map NovelRow.metadata

/-- DatabaseManager.get_all_subscriptions: every subscription row, with
no filter on notifications_enabled (the ORDER BY only affects order,
which the claims below do not depend on). -/
def get_all_subscriptions (db : DB) : List UserSubscription :=
  db.subs

/-- DatabaseManager.get_novel_subscribers: user ids of the subscriptions
to this novel with notifications_enabled = 1. -/
def get_novel_subscribers (db : DB) (novel_id : String) : List Int :=
  (db.subs.filter fun s => s.novel_id == novel_id && s.notifications_enabled).map
    UserSubscription.user_id

/-- DatabaseManager.update_last_notified_chapter: UPDATE the rows
matching user_id and novel_id. -/
def update_last_notified_chapter (db : DB) (uid : Int) (novel_id : String)
    (chapter_title : String) : DB :=
  { db with
    subs := db.subs.map fun s =>
      if s.user_id = uid ∧ s.novel_id = novel_id then
        { s with last_notified_chapter := some chapter_title }
      else s }

/-! ## Scheduler

compare_latest_chapters is declared on the scraper but its body is not
in the sources; the scheduler claims quantify over its possible results,
so it is kept abstract as a result record.  Message delivery is
modelled by a function from user id to success (true) or a raised
transport error (false). -/

/-- The dict returned by scraper.compare_latest_chapters. -/
structure ComparisonResult where
  latest_chapter : Option Chapter
  last_free_chapter : Option Chapter
  has_paid_chapters : Bool
deriving DecidableEq

/-- UpdateScheduler._notify_subscribers delivery loop over the fetched
subscriber ids: on success the cursor row is updated and the id is
recorded; on a raised delivery error the id is skipped and the loop
continues with the remaining subscribers. -/
def notifyLoop (send : Int → Bool) (novel_id chapter_title : String) :
    List Int → DB → DB × List Int
  | [], db => (db, [])
  | uid :: rest, db =>
    if send uid then
      let db1 := update_last_notified_chapter db uid novel_id chapter_title
      let r := notifyLoop send novel_id chapter_title rest db1
      (r.1, uid :: r.2)
    else
      notifyLoop send novel_id chapter_title rest db

/-- Result of one notification fan-out. -/
structure NotifyResult where
  db : DB
  attempted : List Int
  delivered : List Int

/-- UpdateScheduler._notify_subscribers. -/
def _notify_subscribers (send : Int → Bool) (db : DB) (novel_id : String)
    (new_chapter : Chapter) : NotifyResult :=
  let subscriber_ids := get_novel_subscribers db novel_id
  let r := notifyLoop send novel_id new_chapter.title subscriber_ids db
  ⟨r.1, subscriber_ids, r.2⟩

/-- Result of one per-entity check: the store afterwards, the update
event (chapter for notification and the has_paid_chapters flag) when an
update was declared, and the notification attempt and delivery lists. -/
structure CheckResult where
  db : DB
  event : Option (Chapter × Bool)
  attempted : List Int
  delivered : List Int

/-- UpdateScheduler._check_single_novel.  `tCheck` models the
time.time() written into the metadata, `tSave` the time.time() of the
save; `comparison` is the fetched compare_latest_chapters result.  A
Chapter object is always truthy, so the guard on the fetched latest
chapter and the chapter_for_notification selection test None-ness. -/
def _check_single_novel (send : Int → Bool) (db : DB) (novel_id : String)
    (comparison : ComparisonResult) (tCheck tSave : ℚ) : CheckResult :=
  match get_novel_metadata db novel_id with
  | none => ⟨db, none, [], []⟩
  | some current_metadata =>
    match comparison.latest_chapter with
    | none => ⟨db, none, [], []⟩
    | some latest_chapter =>
      let current1 := { current_metadata with last_updated := tCheck }
      let chapter_for_notification :=
        match comparison.last_free_chapter with
        | some c => c
        | none => latest_chapter
      if chapter_for_notification.title = current1.latest_chapter.title then
        ⟨{ db with novels := save_novel_metadata db.novels current1 tSave }, none, [], []⟩
      else
        let current2 := { current1 with latest_chapter := chapter_for_notification }
        let db2 := { db with novels := save_novel_metadata db.novels current2 tSave }
        let nr := _notify_subscribers send db2 novel_id chapter_for_notification
        ⟨nr.db, some (chapter_for_notification, comparison.has_paid_chapters),
         nr.attempted, nr.delivered⟩

/-- The de-duplicated novel id list a cycle iterates:
list(set(sub.novel_id for sub in get_all_subscriptions())). -/
def unique_novels (db : DB) : List String :=
  ((get_all_subscriptions db).map UserSubscription.novel_id).dedup

/-- UpdateScheduler.check_all_novels_for_updates: one cycle, visiting
unique_novels sequentially; `comparisons` gives the fetched comparison
for each novel id.  Returns the final store and the visited id list. -/
def check_all_novels_for_updates (send : Int → Bool)
    (comparisons : String → ComparisonResult) (tCheck tSave : ℚ) (db : DB) :
    DB × List String :=
  ((unique_novels db).foldl
      (fun d novel_id => (_check_single_novel send d novel_id (comparisons novel_id) tCheck tSave).db)
      db,
   unique_novels db)

/-! ## URL utilities

utils.extract_novel_id_from_url relies on urllib.parse.urlparse; the
parts it reads (netloc and path) are modelled after CPython urlparse:
urlsplit — removal of tab, CR and LF; optional scheme split; netloc
after a leading double slash up to the first slash, question mark or
hash, with the unbalanced-bracket ValueError; the path preceding the
fragment and query — followed by the urlparse params split, which
removes a trailing ";params" from the last path segment.  The NFKC
netloc check and the bracketed-host validation of newer interpreters
only concern exotic inputs and are not modelled. -/

/-- Is the needle a contiguous infix of the haystack. -/
def listInfixOf (needle : List Char) : List Char → Bool
  | [] => needle.isEmpty
  | c :: rest => needle.isPrefixOf (c :: rest) || listInfixOf needle rest

/-- Python substring test `needle in hay`. -/
def pyContains (hay needle : String) : Bool :=
  listInfixOf needle.toList hay.toList

/-- urlsplit preprocessing: remove every tab, CR and LF. -/
def removeUnsafeChars (s : String) : String :=
  String.mk (s.toList.filter fun c => !(c == '\t' || c == '\r' || c == '\n'))

/-- A character allowed inside a URL scheme. -/
def schemeChar (c : Char) : Bool :=
  c.isAlpha || c.isDigit || c == '+' || c == '-' || c == '.'

/-- urlsplit scheme handling: drop a valid scheme prefix up to the first
colon, keep the input unchanged otherwise. -/
def splitScheme (cs : List Char) : List Char :=
  match cs.findIdx? (fun c => c == ':') with
  | none => cs
  | some i =>
    if 0 < i ∧ (cs.headD ' ').isAlpha ∧ (cs.take i).all schemeChar then
      cs.drop (i + 1)
    else cs

/-- A character ending the netloc. -/
def netlocEnd (c : Char) : Bool :=
  c == '/' || c == '?' || c == '#'

/-- urlsplit netloc handling: when the input starts with a double slash,
the netloc runs to the first slash, question mark or hash; a netloc
with an unbalanced square bracket raises (none). -/
def splitNetloc (cs : List Char) : Option (List Char × List Char) :=
  if cs.take 2 = ['/', '/'] then
    let after := cs.drop 2
    let netloc := after.takeWhile fun c => !netlocEnd c
    let rest := after.dropWhile fun c => !netlocEnd c
    if (netloc.contains '[' && !netloc.contains ']')
        || (netloc.contains ']' && !netloc.contains '[') then none
    else some (netloc, rest)
  else some ([], cs)

/-- The path: what precedes the fragment and the query. -/
def pathPart (cs : List Char) : List Char :=
  cs.takeWhile fun c => !(c == '#' || c == '?')

/-- Python str.find(c, start): index of the first occurrence of c at or
after position start, none when absent. -/
def pyFindFrom (c : Char) (cs : List Char) (start : Nat) : Option Nat :=
  match (cs.drop start).findIdx? (fun x => x == c) with
  | none => none
  | some j => some (start + j)

/-- Python str.rfind(c): index of the last occurrence of c, none when
absent. -/
def pyRfind (c : Char) (cs : List Char) : Option Nat :=
  match cs.reverse.findIdx? (fun x => x == c) with
  | none => none
  | some j => some (cs.length - 1 - j)

/-- urlparse _splitparams applied to the path: when the path contains a
semicolon, drop everything from the first semicolon of the last slash
segment on (from the first semicolon at all when the path has no
slash); when that segment has no semicolon, keep the path unchanged. -/
def splitParamsPath (cs : List Char) : List Char :=
  if cs.contains ';' then
    if cs.contains '/' then
      match pyRfind '/' cs with
      | none => cs
      | some r =>
        match pyFindFrom ';' cs r with
        | none => cs
        | some i => cs.take i
    else
      match cs.findIdx? (fun x => x == ';') with
      | none => cs
      | some i => cs.take i
  else cs

/-- urllib.parse.urlparse restricted to the fields the code reads:
some (netloc, path) with the params split off the path, or none when
urlsplit raises ValueError. -/
def pyUrlparse (url : String) : Option (String × String) :=
  let cs := (removeUnsafeChars url).toList
  match splitNetloc (splitScheme cs) with
  | none => none
  | some (netloc, rest) =>
    some (String.mk netloc, String.mk (splitParamsPath (pathPart rest)))

/-- Python split on a single-character separator: always a nonempty
segment list, with empty segments between adjacent separators. -/
def splitChar (sep : Char) : List Char → List (List Char)
  | [] => [[]]
  | c :: rest =>
    if c == sep then [] :: splitChar sep rest
    else
      match splitChar sep rest with
      | [] => [[c]]
      | seg :: segs => (c :: seg) :: segs

/-- Python str.strip(slash): remove leading and trailing slashes. -/
def pyStripSlashes (s : String) : String :=
  String.mk (((s.toList.dropWhile (fun c => c == '/')).reverse.dropWhile
      (fun c => c == '/')).reverse)

/-- The '/'-separated segments of the '/'-stripped path. -/
def pathSegments (path : String) : List String :=
  (splitChar '/' (pyStripSlashes path).toList).map String.mk

/-- The candidate novel id of a book path segment: the part after the
last underscore, or the whole segment when it has none. -/
def idCandidate (seg : String) : String :=
  String.mk ((splitChar '_' seg.toList).getLastD seg.toList)

/-- utils.extract_novel_id_from_url.  Total: the except branch of the
source maps any urlparse ValueError to None. -/
def extract_novel_id_from_url (url : String) : Option String :=
  match pyUrlparse (pyStrip url) with
  | none => none
  | some (netloc, path) =>
    if netloc = "" ∨ pyContains netloc "webnovel.com" = false then none
    else
      let path_parts := pathSegments path
      if path_parts.length < 2 ∨ path_parts.headD "" ≠ "book" then none
      else
        let book_identifier := path_parts.getD 1 ""
        let novel_id :=
          if book_identifier.toList.contains '_' then
            String.mk ((splitChar '_' book_identifier.toList).getLastD [])
          else book_identifier
        if pyIsDigitStr novel_id then some novel_id else none

/-- Repeated saves: fold save_novel_metadata over a list of metadata and
save-time pairs. -/
def saveMany (tbl : NovelsTable) (ops : List (NovelMetadata × ℚ)) : NovelsTable :=
  ops.foldl (fun tb p => save_novel_metadata tb p.1 p.2) tbl

/-- Proof-side characterization of the cursor state after a fan-out in
which `good` is the list of user ids that were delivered to. -/
def applyFanout (novel_id chapter_title : String) (good : List Int)
    (s : UserSubscription) : UserSubscription :=
  if s.novel_id = novel_id ∧ s.user_id ∈ good then
    { s with last_notified_chapter := some chapter_title }
  else s

/-! ## Theorems -/

/-- Chapter round-trip helper. -/
theorem chapter_roundtrip_aux (c : Chapter) :
    Chapter.fromDict (Chapter.toDict c) = some c := by
  cases c with
  | mk num title url published locked => cases num <;> rfl

/-- Round-trip of optionMapList against an element-wise round-trip. -/
theorem optionMapList_roundtrip_aux (f : β → Option α) (g : α → β)
    (h : ∀ a, f (g a) = some a) : ∀ l : List α, optionMapList f (l.map g) = some l := by
  intro l
  induction l with
  | nil => rfl
  | cons x xs ih => simp [optionMapList, h x, ih]

/-- Volume round-trip helper. -/
theorem volume_roundtrip_aux (v : Volume) :
    Volume.fromDict (Volume.toDict v) = some v := by
  cases v with
  | mk title chapters =>
    simp [Volume.toDict, Volume.fromDict, pyLookup, pyAsStr,
      optionMapList_roundtrip_aux Chapter.fromDict Chapter.toDict chapter_roundtrip_aux]

/-- NovelMetadata round-trip helper. -/
theorem metadata_roundtrip_aux (m : NovelMetadata) (now : ℚ) :
    NovelMetadata.fromDict now (NovelMetadata.toDict m) = some m := by
  cases m with
  | mk nid title author cover latest volumes lastu =>
    simp [NovelMetadata.toDict, NovelMetadata.fromDict, pyLookup, pyAsStr, pyAsFloat,
      chapter_roundtrip_aux,
      optionMapList_roundtrip_aux Volume.fromDict Volume.toDict volume_roundtrip_aux]

/-- C9: serialization round-trips for every data model value — for every
Chapter, Volume and NovelMetadata value, from_dict applied to to_dict
restores the value field for field (optional chapter number, locked
flag, nested volume and chapter lists, and last-updated timestamp
included). -/
theorem serialization_roundtrip :
    (∀ c : Chapter, Chapter.fromDict (Chapter.toDict c) = some c) ∧
    (∀ v : Volume, Volume.fromDict (Volume.toDict v) = some v) ∧
    (∀ (m : NovelMetadata) (now : ℚ),
        NovelMetadata.fromDict now (NovelMetadata.toDict m) = some m) :=
  ⟨chapter_roundtrip_aux, volume_roundtrip_aux, metadata_roundtrip_aux⟩

/-- Saves never delete a row and never change a present rows creation
timestamp. -/
theorem saveMany_preserves_created_aux (id : String) (t0 : ℚ) :
    ∀ (ops : List (NovelMetadata × ℚ)) (tbl : NovelsTable),
      (∃ r, tbl id = some r ∧ r.created_at = t0) →
      ∃ r, saveMany tbl ops id = some r ∧ r.created_at = t0 := by
  intro ops
  induction ops with
  | nil => intro tbl h; exact h
  | cons p rest ih =>
    intro tbl h
    obtain ⟨r, hr, hc⟩ := h
    rw [show saveMany tbl (p :: rest) = saveMany (save_novel_metadata tbl p.1 p.2) rest from rfl]
    apply ih
    by_cases hid : id = p.1.novel_id
    · subst hid
      exact ⟨⟨p.1, p.2, r.created_at⟩, by simp [save_novel_metadata, hr], hc⟩
    · exact ⟨r, by simp [save_novel_metadata, hid, hr], hc⟩

/-- C8: save_novel_metadata is an upsert preserving the original
creation timestamp: replacing a present row keeps its created_at while
replacing metadata and last_updated; an absent id gets created_at equal
to the save time; other ids are untouched; and across any later chain
of saves the created_at written by the first save of an id persists. -/
theorem save_novel_metadata_upsert :
    (∀ (tbl : NovelsTable) (m : NovelMetadata) (t : ℚ) (r : NovelRow),
        tbl m.novel_id = some r →
        save_novel_metadata tbl m t m.novel_id = some ⟨m, t, r.created_at⟩) ∧
    (∀ (tbl : NovelsTable) (m : NovelMetadata) (t : ℚ),
        tbl m.novel_id = none →
        save_novel_metadata tbl m t m.novel_id = some ⟨m, t, t⟩) ∧
    (∀ (tbl : NovelsTable) (m : NovelMetadata) (t : ℚ) (id : String),
        id ≠ m.novel_id → save_novel_metadata tbl m t id = tbl id) ∧
    (∀ (tbl : NovelsTable) (m0 : NovelMetadata) (t0 : ℚ)
        (ops : List (NovelMetadata × ℚ)),
        tbl m0.novel_id = none →
        ∃ r, saveMany (save_novel_metadata tbl m0 t0) ops m0.novel_id = some r ∧
          r.created_at = t0) := by
  refine ⟨?_, ?_, ?_, ?_⟩
  · intro tbl m t r hr; simp [save_novel_metadata, hr]
  · intro tbl m t hr; simp [save_novel_metadata, hr]
  · intro tbl m t id hne; simp [save_novel_metadata, hne]
  · intro tbl m0 t0 ops h0
    exact saveMany_preserves_created_aux m0.novel_id t0 ops _
      ⟨⟨m0, t0, t0⟩, by simp [save_novel_metadata, h0], rfl⟩

/-- C8 witness: a concrete present-id save keeps created_at 7 while
replacing the other columns, via the upsert theorem. -/
theorem save_novel_metadata_upsert_witness :
    save_novel_metadata
        (fun id =>
          if id = "E" then
            some ⟨⟨"E", "T0", "A0", "", ⟨none, "c1", "", "", false⟩, [], 1⟩, 2, 7⟩
          else none)
        ⟨"E", "T1", "A1", "", ⟨none, "c2", "", "", false⟩, [], 3⟩ 9 "E" =
      some ⟨⟨"E", "T1", "A1", "", ⟨none, "c2", "", "", false⟩, [], 3⟩, 9, 7⟩ :=
  save_novel_metadata_upsert.1 _
    ⟨"E", "T1", "A1", "", ⟨none, "c2", "", "", false⟩, [], 3⟩ 9
    ⟨⟨"E", "T0", "A0", "", ⟨none, "c1", "", "", false⟩, [], 1⟩, 2, 7⟩ (by decide)

/-- C7: extraction never returns a snapshot candidate without a latest
chapter: when no chapter is located by any fallback the whole
extraction fails, and a returned candidate carries exactly the chapter
the latest-chapter chain located. -/
theorem scrape_requires_latest_chapter (novel_id : String) (now : ℚ) (soup : Soup) :
    (_extract_latest_chapter soup = none → scrape_novel_metadata novel_id now soup = none) ∧
    (∀ m, scrape_novel_metadata novel_id now soup = some m →
        _extract_latest_chapter soup = some m.latest_chapter) := by
  constructor
  · intro h
    by_cases ht : _extract_novel_title soup = "" <;> simp [scrape_novel_metadata, ht, h]
  · intro m hm
    by_cases ht : _extract_novel_title soup = ""
    · simp [scrape_novel_metadata, ht] at hm
    · simp only [scrape_novel_metadata, if_neg ht] at hm
      cases hl : _extract_latest_chapter soup with
      | none => rw [hl] at hm; cases hm
      | some lc =>
        rw [hl] at hm
        cases hm
        rfl

/-- C7 witness: on a document with no chapter anywhere, the
latest-chapter chain fails and so does the whole extraction. -/
theorem scrape_requires_latest_chapter_witness :
    scrape_novel_metadata "w" 0
        ⟨some ⟨"T"⟩, none, none, none, none, none, none, none, none, [], [], []⟩ = none :=
  (scrape_requires_latest_chapter "w" 0
    ⟨some ⟨"T"⟩, none, none, none, none, none, none, none, none, [], [], []⟩).1 rfl

/-- C6 counterexample: a primary title node that is present but has
whitespace-only text does not fall through to the fallback locator —
extraction returns the empty string, not the fallback text "X", so the
claim that an empty-text primary yields the fallback value is false. -/
theorem extract_title_empty_text_counterexample :
    getTextStrip ⟨"  "⟩ = "" ∧
    (Soup.mk (some ⟨"  "⟩) (some ⟨"X"⟩) none none none none none none none [] [] []).titleFallback
        = some ⟨"X"⟩ ∧
    getTextStrip ⟨"X"⟩ = "X" ∧
    _extract_novel_title
        (Soup.mk (some ⟨"  "⟩) (some ⟨"X"⟩) none none none none none none none [] [] []) = "" ∧
    _extract_novel_title
        (Soup.mk (some ⟨"  "⟩) (some ⟨"X"⟩) none none none none none none none [] [] []) ≠ "X" := by
  decide

/-- C6 amended: for title and author a present primary node is used
verbatim (trimmed) even when its text is empty — only an absent primary
falls through to the fallback, and only when no locator matches is the
documented default returned exactly; for the cover, a present node with
an absent or empty src attribute does fall through, and the default is
the empty string. -/
theorem extract_field_fallback_chain (soup : Soup) :
    (∀ e, soup.titlePrimary = some e → _extract_novel_title soup = getTextStrip e) ∧
    (∀ e, soup.titlePrimary = none → soup.titleFallback = some e →
        _extract_novel_title soup = getTextStrip e) ∧
    (soup.titlePrimary = none → soup.titleFallback = none →
        _extract_novel_title soup = "Untitled") ∧
    (∀ e, soup.authorPrimary = some e → _extract_author soup = getTextStrip e) ∧
    (∀ e, soup.authorPrimary = none → soup.authorFallback = some e →
        _extract_author soup = getTextStrip e) ∧
    (soup.authorPrimary = none → soup.authorFallback = none →
        _extract_author soup = "Unknown Author") ∧
    (∀ s, srcTruthy soup.coverPrimary = some s → _extract_cover_url soup = s) ∧
    (∀ s, srcTruthy soup.coverPrimary = none → srcTruthy soup.coverFallback = some s →
        _extract_cover_url soup = s) ∧
    (srcTruthy soup.coverPrimary = none → srcTruthy soup.coverFallback = none →
        _extract_cover_url soup = "") := by
  refine ⟨?_, ?_, ?_, ?_, ?_, ?_, ?_, ?_, ?_⟩ <;>
    (intros; simp_all [_extract_novel_title, _extract_author, _extract_cover_url])

/-- C6 amended witness: an absent primary title with a present fallback
yields the fallback text trimmed. -/
theorem extract_field_fallback_chain_witness :
    _extract_novel_title
        (Soup.mk none (some ⟨" T "⟩) none none none none none none none [] [] []) = "T" :=
  ((extract_field_fallback_chain
      (Soup.mk none (some ⟨" T "⟩) none none none none none none none [] [] [])).2.1
    ⟨" T "⟩ rfl rfl).trans (by decide)

/-- Folding one delivered user into the fan-out characterization. -/
theorem applyFanout_cons_aux (novel_id t : String) (uid : Int) (good : List Int)
    (s : UserSubscription) :
    applyFanout novel_id t (uid :: good) s =
      applyFanout novel_id t good
        (if s.user_id = uid ∧ s.novel_id = novel_id then
          { s with last_notified_chapter := some t }
        else s) := by
  by_cases h1 : s.novel_id = novel_id
  · by_cases h2 : s.user_id = uid
    · by_cases h3 : s.user_id ∈ good <;>
        simp [applyFanout, h1, h2, h3, List.mem_cons]
    · simp [applyFanout, h1, h2, List.mem_cons]
  · simp [applyFanout, h1]

/-- The delivery loop leaves the novels table alone, updates exactly the
cursors of the delivered user ids, and reports the delivered ids: the
ids of the list that the delivery function accepts. -/
theorem notifyLoop_characterization_aux (send : Int → Bool) (novel_id t : String) :
    ∀ (L : List Int) (db : DB),
      (notifyLoop send novel_id t L db).1.novels = db.novels ∧
      (notifyLoop send novel_id t L db).1.subs
          = db.subs.map (applyFanout novel_id t (L.filter send)) ∧
      (notifyLoop send novel_id t L db).2 = L.filter send := by
  intro L
  induction L with
  | nil =>
    intro db
    refine ⟨rfl, ?_, rfl⟩
    symm
    simp only [List.filter_nil]
    have h : (applyFanout novel_id t []) = fun s => s := by
      funext s; simp [applyFanout]
    rw [h]
    simp [notifyLoop]
  | cons uid rest ih =>
    intro db
    by_cases hs : send uid = true
    · have hfilter : (uid :: rest).filter send = uid :: rest.filter send := by
        simp [List.filter_cons, hs]
      obtain ⟨ihn, ihs, ihd⟩ := ih (update_last_notified_chapter db uid novel_id t)
      have hstep : notifyLoop send novel_id t (uid :: rest) db
          = ((notifyLoop send novel_id t rest (update_last_notified_chapter db uid novel_id t)).1,
             uid :: (notifyLoop send novel_id t rest
                (update_last_notified_chapter db uid novel_id t)).2) := by
        simp [notifyLoop, hs]
      rw [hstep]
      refine ⟨by rw [ihn]; rfl, ?_, by rw [ihd, hfilter]⟩
      rw [ihs, hfilter]
      show (db.subs.map fun s =>
          if s.user_id = uid ∧ s.novel_id = novel_id then
            { s with last_notified_chapter := some t }
          else s).map (applyFanout novel_id t (rest.filter send))
        = db.subs.map (applyFanout novel_id t (uid :: rest.filter send))
      rw [List.map_map]
      apply List.map_congr_left
      intro s _
      simp only [Function.comp_apply]
      exact (applyFanout_cons_aux novel_id t uid (rest.filter send) s).symm
    · have hfilter : (uid :: rest).filter send = rest.filter send := by
        simp [List.filter_cons, hs]
      have hstep : notifyLoop send novel_id t (uid :: rest) db
          = notifyLoop send novel_id t rest db := by
        simp [notifyLoop, hs]
      rw [hstep, hfilter]
      exact ih db

/-- The fan-out never touches the novels table. -/
theorem notify_preserves_novels_aux (send : Int → Bool) (db : DB) (novel_id : String)
    (ch : Chapter) : (_notify_subscribers send db novel_id ch).db.novels = db.novels :=
  (notifyLoop_characterization_aux send novel_id ch.title
    (get_novel_subscribers db novel_id) db).1

/-- C4: in one fan-out, every enabled subscriber of the novel gets a
delivery attempt regardless of earlier failures, and a subscription
rows cursor becomes the delivered chapters title exactly when that
subscribers delivery succeeds, staying untouched on failure.  The
pairwise hypothesis is the UNIQUE(user_id, novel_id) constraint of the
subscriptions table. -/
theorem notify_subscribers_isolation (send : Int → Bool) (db : DB) (novel_id : String)
    (ch : Chapter)
    (huniq : db.subs.Pairwise fun a b => a.user_id ≠ b.user_id ∨ a.novel_id ≠ b.novel_id) :
    (_notify_subscribers send db novel_id ch).attempted = get_novel_subscribers db novel_id ∧
    (_notify_subscribers send db novel_id ch).db.novels = db.novels ∧
    (_notify_subscribers send db novel_id ch).db.subs = db.subs.map fun s =>
      if s.novel_id = novel_id ∧ s.notifications_enabled = true ∧ send s.user_id = true then
        { s with last_notified_chapter := some ch.title }
      else s := by
  obtain ⟨hn, hsubs, _⟩ := notifyLoop_characterization_aux send novel_id ch.title
      (get_novel_subscribers db novel_id) db
  refine ⟨rfl, hn, ?_⟩
  rw [show (_notify_subscribers send db novel_id ch).db
      = (notifyLoop send novel_id ch.title (get_novel_subscribers db novel_id) db).1 from rfl]
  rw [hsubs]
  apply List.map_congr_left
  intro s hsmem
  by_cases h1 : s.novel_id = novel_id
  · by_cases h2 : s.notifications_enabled = true
    · by_cases h3 : send s.user_id = true
      · have hmem : s.user_id ∈ (get_novel_subscribers db novel_id).filter send := by
          rw [List.mem_filter]
          refine ⟨?_, h3⟩
          apply List.mem_map_of_mem
          rw [List.mem_filter]
          exact ⟨hsmem, by simp [h1, h2]⟩
        simp [applyFanout, h1, h2, h3, hmem]
      · have hmem : s.user_id ∉ (get_novel_subscribers db novel_id).filter send := by
          intro hmem
          rw [List.mem_filter] at hmem
          exact h3 hmem.2
        simp [applyFanout, h1, h2, h3, hmem]
    · have hmem : s.user_id ∉ (get_novel_subscribers db novel_id).filter send := by
        intro hmem
        rw [List.mem_filter] at hmem
        obtain ⟨hmem1, _⟩ := hmem
        rw [get_novel_subscribers, List.mem_map] at hmem1
        obtain ⟨s2, hs2mem, hs2uid⟩ := hmem1
        rw [List.mem_filter] at hs2mem
        obtain ⟨hs2mem, hs2p⟩ := hs2mem
        simp only [Bool.and_eq_true, beq_iff_eq] at hs2p
        obtain ⟨hs2novel, hs2en⟩ := hs2p
        by_cases heq : s = s2
        · rw [heq] at h2; exact h2 hs2en
        · have hsym : Symmetric
              (fun a b : UserSubscription => a.user_id ≠ b.user_id ∨ a.novel_id ≠ b.novel_id) :=
            fun a b h => h.imp Ne.symm Ne.symm
          rcases List.Pairwise.forall hsym huniq hsmem hs2mem heq with hu | hv
          · exact hu hs2uid.symm
          · exact hv (h1.trans hs2novel.symm)
      simp [applyFanout, h1, h2, hmem]
  · simp [applyFanout, h1]

/-- C4 witness: with two enabled subscribers and a transport that fails
for user 1 and succeeds for user 2, both are attempted, user 2 gets the
cursor "C2" and user 1 keeps its old cursor. -/
theorem notify_subscribers_isolation_witness :
    (_notify_subscribers (fun uid => uid == 2)
        ⟨fun _ => none,
         [⟨1, "N", 0, some "C1", true⟩, ⟨2, "N", 0, some "C1", true⟩]⟩
        "N" ⟨none, "C2", "", "", false⟩).attempted = [1, 2] ∧
    (_notify_subscribers (fun uid => uid == 2)
        ⟨fun _ => none,
         [⟨1, "N", 0, some "C1", true⟩, ⟨2, "N", 0, some "C1", true⟩]⟩
        "N" ⟨none, "C2", "", "", false⟩).db.subs =
      [⟨1, "N", 0, some "C1", true⟩, ⟨2, "N", 0, some "C2", true⟩] := by
  have h := notify_subscribers_isolation (fun uid => uid == 2)
    ⟨fun _ => none,
     [⟨1, "N", 0, some "C1", true⟩, ⟨2, "N", 0, some "C1", true⟩]⟩
    "N" ⟨none, "C2", "", "", false⟩ (by decide)
  exact ⟨h.1.trans (by decide), h.2.2.trans (by decide)⟩

/-- C1: for any stored snapshot and fetched comparison with a latest
chapter, the chapter used for comparison and notification is the last
free chapter when present, else the unconditional latest, and the check
declares an update exactly when that chapters title differs from the
stored latest chapters title. -/
theorem check_single_novel_update_iff (send : Int → Bool) (db : DB) (novel_id : String)
    (cmp : ComparisonResult) (tCheck tSave : ℚ) (stored : NovelMetadata) (latest : Chapter)
    (hmd : get_novel_metadata db novel_id = some stored)
    (hl : cmp.latest_chapter = some latest) :
    (_check_single_novel send db novel_id cmp tCheck tSave).event =
      if (cmp.last_free_chapter.getD latest).title = stored.latest_chapter.title then none
      else some (cmp.last_free_chapter.getD latest, cmp.has_paid_chapters) := by
  unfold _check_single_novel
  rw [hmd, hl]
  cases hf : cmp.last_free_chapter with
  | none =>
    simp only [Option.getD_none]
    by_cases hEq : latest.title = stored.latest_chapter.title <;> simp [hEq]
  | some c =>
    simp only [Option.getD_some]
    by_cases hEq : c.title = stored.latest_chapter.title <;> simp [hEq]

/-- C1 witness: stored latest "Z", fetched unconditional latest a locked
"B" with last free "A": the check declares an update for "A" carrying
the has_paid_chapters flag. -/
theorem check_single_novel_update_iff_witness :
    (_check_single_novel (fun _ => true)
        ⟨fun id =>
          if id = "N" then
            some ⟨⟨"N", "T", "A", "", ⟨none, "Z", "", "", false⟩, [], 1⟩, 1, 1⟩
          else none, []⟩
        "N"
        ⟨some ⟨none, "B", "", "", true⟩, some ⟨none, "A", "", "", false⟩, true⟩
        5 6).event =
      some (⟨none, "A", "", "", false⟩, true) := by
  have h := check_single_novel_update_iff (fun _ => true)
    ⟨fun id =>
      if id = "N" then
        some ⟨⟨"N", "T", "A", "", ⟨none, "Z", "", "", false⟩, [], 1⟩, 1, 1⟩
      else none, []⟩
    "N"
    ⟨some ⟨none, "B", "", "", true⟩, some ⟨none, "A", "", "", false⟩, true⟩
    5 6
    ⟨"N", "T", "A", "", ⟨none, "Z", "", "", false⟩, [], 1⟩
    ⟨none, "B", "", "", true⟩ (by decide) (by decide)
  exact h.trans (by decide)


/-- C5: when the fetched comparison has no latest chapter (fetch or
extraction failure), the check mutates nothing at all; when it has one
and a snapshot is stored, the snapshot is re-persisted with its
last-checked timestamp refreshed whether or not an update is declared,
and its latest-chapter field is replaced exactly when an update is
declared.  The novel_id hypothesis is the store invariant that a row is
keyed by its metadatas novel_id. -/
theorem check_single_novel_frame (send : Int → Bool) (db : DB) (novel_id : String)
    (cmp : ComparisonResult) (tCheck tSave : ℚ) :
    (cmp.latest_chapter = none →
        _check_single_novel send db novel_id cmp tCheck tSave = ⟨db, none, [], []⟩) ∧
    (∀ (row : NovelRow) (latest : Chapter),
        db.novels novel_id = some row → row.metadata.novel_id = novel_id →
        cmp.latest_chapter = some latest →
        (_check_single_novel send db novel_id cmp tCheck tSave).db.novels novel_id =
          some ⟨{ row.metadata with
                    last_updated := tCheck
                    latest_chapter :=
                      if (cmp.last_free_chapter.getD latest).title
                          = row.metadata.latest_chapter.title then
                        row.metadata.latest_chapter
                      else cmp.last_free_chapter.getD latest },
                tSave, row.created_at⟩) := by
  constructor
  · intro hl
    unfold _check_single_novel
    cases hmd : get_novel_metadata db novel_id with
    | none => rfl
    | some md => rw [hl]
  · intro row latest hrow hid hl
    have hmd : get_novel_metadata db novel_id = some row.metadata := by
      rw [get_novel_metadata, hrow]; rfl
    unfold _check_single_novel
    rw [hmd, hl]
    cases hf : cmp.last_free_chapter with
    | none =>
      simp only [Option.getD_none]
      by_cases hEq : latest.title = row.metadata.latest_chapter.title
      · simp [hEq, save_novel_metadata, hid, hrow]
      · simp [hEq, save_novel_metadata, hid, hrow, notify_preserves_novels_aux]
    | some c =>
      simp only [Option.getD_some]
      by_cases hEq : c.title = row.metadata.latest_chapter.title
      · simp [hEq, save_novel_metadata, hid, hrow]
      · simp [hEq, save_novel_metadata, hid, hrow, notify_preserves_novels_aux]

/-- C5 witness: a no-update check re-persists the stored snapshot with
last_updated refreshed to 5, latest chapter unchanged and created_at
kept. -/
theorem check_single_novel_frame_witness :
    (_check_single_novel (fun _ => true)
        ⟨fun id =>
          if id = "N" then
            some ⟨⟨"N", "T", "A", "", ⟨none, "C", "", "", false⟩, [], 1⟩, 1, 3⟩
          else none, []⟩
        "N" ⟨some ⟨none, "C", "", "", false⟩, none, false⟩ 5 6).db.novels "N" =
      some ⟨⟨"N", "T", "A", "", ⟨none, "C", "", "", false⟩, [], 5⟩, 6, 3⟩ := by
  have h := (check_single_novel_frame (fun _ => true)
    ⟨fun id =>
      if id = "N" then
        some ⟨⟨"N", "T", "A", "", ⟨none, "C", "", "", false⟩, [], 1⟩, 1, 3⟩
      else none, []⟩
    "N" ⟨some ⟨none, "C", "", "", false⟩, none, false⟩ 5 6).2
    ⟨⟨"N", "T", "A", "", ⟨none, "C", "", "", false⟩, [], 1⟩, 1, 3⟩
    ⟨none, "C", "", "", false⟩ (by decide) (by decide) (by decide)
  exact h.trans (by decide)

/-- C2: end-to-end scenario — entity "E1" stored at latest "Ch.10", the
fetch yields an unlocked "Ch.11" with no separate free chapter, two
enabled subscribers: the check emits one update event for "Ch.11", both
subscribers are delivered exactly once, both cursors become "Ch.11" and
the stored snapshots latest chapter becomes "Ch.11". -/
theorem scheduled_check_end_to_end :
    (_check_single_novel (fun _ => true)
        ⟨fun id =>
          if id = "E1" then
            some ⟨⟨"E1", "T", "A", "", ⟨none, "Ch.10", "/c10", "D1", false⟩, [], 50⟩, 50, 10⟩
          else none,
         [⟨101, "E1", 1, none, true⟩, ⟨102, "E1", 2, none, true⟩]⟩
        "E1" ⟨some ⟨none, "Ch.11", "/c11", "D2", false⟩, none, false⟩ 100 101).event =
      some (⟨none, "Ch.11", "/c11", "D2", false⟩, false) ∧
    (_check_single_novel (fun _ => true)
        ⟨fun id =>
          if id = "E1" then
            some ⟨⟨"E1", "T", "A", "", ⟨none, "Ch.10", "/c10", "D1", false⟩, [], 50⟩, 50, 10⟩
          else none,
         [⟨101, "E1", 1, none, true⟩, ⟨102, "E1", 2, none, true⟩]⟩
        "E1" ⟨some ⟨none, "Ch.11", "/c11", "D2", false⟩, none, false⟩ 100 101).attempted =
      [101, 102] ∧
    (_check_single_novel (fun _ => true)
        ⟨fun id =>
          if id = "E1" then
            some ⟨⟨"E1", "T", "A", "", ⟨none, "Ch.10", "/c10", "D1", false⟩, [], 50⟩, 50, 10⟩
          else none,
         [⟨101, "E1", 1, none, true⟩, ⟨102, "E1", 2, none, true⟩]⟩
        "E1" ⟨some ⟨none, "Ch.11", "/c11", "D2", false⟩, none, false⟩ 100 101).delivered =
      [101, 102] ∧
    (_check_single_novel (fun _ => true)
        ⟨fun id =>
          if id = "E1" then
            some ⟨⟨"E1", "T", "A", "", ⟨none, "Ch.10", "/c10", "D1", false⟩, [], 50⟩, 50, 10⟩
          else none,
         [⟨101, "E1", 1, none, true⟩, ⟨102, "E1", 2, none, true⟩]⟩
        "E1" ⟨some ⟨none, "Ch.11", "/c11", "D2", false⟩, none, false⟩ 100 101).db.subs =
      [⟨101, "E1", 1, some "Ch.11", true⟩, ⟨102, "E1", 2, some "Ch.11", true⟩] ∧
    (_check_single_novel (fun _ => true)
        ⟨fun id =>
          if id = "E1" then
            some ⟨⟨"E1", "T", "A", "", ⟨none, "Ch.10", "/c10", "D1", false⟩, [], 50⟩, 50, 10⟩
          else none,
         [⟨101, "E1", 1, none, true⟩, ⟨102, "E1", 2, none, true⟩]⟩
        "E1" ⟨some ⟨none, "Ch.11", "/c11", "D2", false⟩, none, false⟩ 100 101).db.novels "E1" =
      some ⟨⟨"E1", "T", "A", "", ⟨none, "Ch.11", "/c11", "D2", false⟩, [], 100⟩, 101, 10⟩ := by
  decide

/-- C3 counterexample: a cycle visits novel "N" although its only
subscription has notifications disabled, so the visited set is not the
set of novels with at least one enabled subscription. -/
theorem cycle_visits_disabled_only_novel_counterexample :
    "N" ∈ (check_all_novels_for_updates (fun _ => true) (fun _ => ⟨none, none, false⟩) 0 0
        ⟨fun _ => none, [⟨1, "N", 0, none, false⟩]⟩).2 ∧
    ∀ s ∈ ([⟨1, "N", 0, none, false⟩] : List UserSubscription),
      s.notifications_enabled = false := by
  decide

/-- C3 amended: the set of novel ids visited by one scheduled cycle is
exactly the de-duplicated set of novel ids that have at least one
subscription row, with no filter on the notifications-enabled flag
(disabled-only novels are still fetched and checked; the enabled filter
is applied only later, at notification fan-out). -/
theorem cycle_visited_set (send : Int → Bool) (comparisons : String → ComparisonResult)
    (tCheck tSave : ℚ) (db : DB) (a : String) :
    a ∈ (check_all_novels_for_updates send comparisons tCheck tSave db).2 ↔
      ∃ s ∈ db.subs, s.novel_id = a := by
  simp only [check_all_novels_for_updates, unique_novels, get_all_subscriptions,
    List.mem_dedup, List.mem_map]

/-- splitChar always yields at least one segment. -/
theorem splitChar_ne_nil (sep : Char) : ∀ l : List Char, splitChar sep l ≠ [] := by
  intro l
  induction l with
  | nil => simp [splitChar]
  | cons c rest ih =>
    by_cases h : (c == sep) = true
    · simp [splitChar, h]
    · have h2 : (c == sep) = false := by revert h; cases c == sep <;> simp
      simp only [splitChar, h2]
      cases hs : splitChar sep rest <;> simp

/-- splitChar on a list without the separator yields that list alone. -/
theorem splitChar_no_sep (sep : Char) :
    ∀ l : List Char, l.contains sep = false → splitChar sep l = [l] := by
  intro l
  induction l with
  | nil => intro _; rfl
  | cons c rest ih =>
    intro h
    rw [List.contains_cons, Bool.or_eq_false_iff] at h
    have hc : (c == sep) = false := by
      cases hcc : c == sep
      · rfl
      · rw [beq_iff_eq] at hcc
        subst hcc
        have h1 := h.1
        rw [beq_self_eq_true] at h1
        cases h1
    simp [splitChar, hc, ih h.2]

/-- getLastD of a nonempty list ignores the default. -/
theorem getLastD_of_ne_nil (l : List α) (h : l ≠ []) (a b : α) :
    l.getLastD a = l.getLastD b := by
  cases hx : l.getLast? with
  | none => exact absurd (List.getLast?_eq_none_iff.mp hx) h
  | some x => simp [List.getLastD_eq_getLast?, hx]

/-- The branchy candidate computation of the code equals idCandidate. -/
theorem codeCandidate_eq (bid : String) :
    (if bid.toList.contains '_' then String.mk ((splitChar '_' bid.toList).getLastD [])
     else bid) = idCandidate bid := by
  by_cases h : bid.toList.contains '_' = true
  · rw [if_pos h, idCandidate]
    exact congrArg String.mk (getLastD_of_ne_nil _ (splitChar_ne_nil '_' bid.toList) [] bid.toList)
  · have hc : bid.toList.contains '_' = false := by
      revert h; cases bid.toList.contains '_' <;> simp
    rw [if_neg h, idCandidate, splitChar_no_sep _ _ hc]
    simp [List.getLastD]

/-- pyIsDigitStr gives a nonempty all-digit string. -/
theorem pyIsDigitStr_spec (s : String) (h : pyIsDigitStr s = true) :
    s ≠ "" ∧ s.toList.all pyCharIsDigit = true := by
  rw [pyIsDigitStr, Bool.and_eq_true, Bool.not_eq_true'] at h
  refine ⟨?_, h.2⟩
  intro heq
  rw [heq] at h
  exact absurd h.1 (by decide)

/-- C10: extract_novel_id_from_url is total (the except branch maps a
urlparse ValueError to None); a returned id is a nonempty all-digit
string; and an id is returned exactly when the parsed netloc contains
"webnovel.com", the first segment of the slash-stripped path is "book",
a second segment exists, and the part of that segment after its last
underscore (the whole segment when it has no underscore) is all digits
— in which case that candidate is returned verbatim. -/
theorem extract_novel_id_from_url_spec (url : String) :
    (∀ s, extract_novel_id_from_url url = some s →
        s ≠ "" ∧ s.toList.all pyCharIsDigit = true) ∧
    (pyUrlparse (pyStrip url) = none → extract_novel_id_from_url url = none) ∧
    (∀ netloc path, pyUrlparse (pyStrip url) = some (netloc, path) →
        extract_novel_id_from_url url =
          if pyContains netloc "webnovel.com" = true
              ∧ (pathSegments path).headD "" = "book"
              ∧ 2 ≤ (pathSegments path).length
              ∧ pyIsDigitStr (idCandidate ((pathSegments path).getD 1 "")) = true
          then some (idCandidate ((pathSegments path).getD 1 ""))
          else none) := by
  have part2 : pyUrlparse (pyStrip url) = none → extract_novel_id_from_url url = none := by
    intro h
    simp [extract_novel_id_from_url, h]
  have part3 : ∀ netloc path, pyUrlparse (pyStrip url) = some (netloc, path) →
      extract_novel_id_from_url url =
        if pyContains netloc "webnovel.com" = true
            ∧ (pathSegments path).headD "" = "book"
            ∧ 2 ≤ (pathSegments path).length
            ∧ pyIsDigitStr (idCandidate ((pathSegments path).getD 1 "")) = true
        then some (idCandidate ((pathSegments path).getD 1 ""))
        else none := by
    intro netloc path hp
    rw [show extract_novel_id_from_url url =
        (if netloc = "" ∨ pyContains netloc "webnovel.com" = false then none
         else
           let path_parts := pathSegments path
           if path_parts.length < 2 ∨ path_parts.headD "" ≠ "book" then none
           else
             let book_identifier := path_parts.getD 1 ""
             let novel_id :=
               if book_identifier.toList.contains '_' then
                 String.mk ((splitChar '_' book_identifier.toList).getLastD [])
               else book_identifier
             if pyIsDigitStr novel_id then some novel_id else none) from by
      rw [extract_novel_id_from_url, hp]]
    by_cases hweb : pyContains netloc "webnovel.com" = true
    · have hno : ¬(netloc = "" ∨ pyContains netloc "webnovel.com" = false) := by
        rintro (hE | hF)
        · subst hE
          exact absurd hweb (by decide)
        · rw [hweb] at hF
          cases hF
      rw [if_neg hno]
      by_cases hbook : (pathSegments path).headD "" = "book"
      · by_cases hlen : 2 ≤ (pathSegments path).length
        · have hno2 : ¬((pathSegments path).length < 2 ∨ (pathSegments path).headD "" ≠ "book") := by
            push_neg
            exact ⟨hlen, hbook⟩
          rw [if_neg hno2]
          simp only [codeCandidate_eq]
          by_cases hdig : pyIsDigitStr (idCandidate ((pathSegments path).getD 1 "")) = true
          · rw [if_pos hdig, if_pos ⟨hweb, hbook, hlen, hdig⟩]
          · rw [if_neg hdig, if_neg (by rintro ⟨_, _, _, hd⟩; exact hdig hd)]
        · rw [if_pos (Or.inl (Nat.not_le.mp hlen)),
            if_neg (by rintro ⟨_, _, hl, _⟩; exact hlen hl)]
      · rw [if_pos (Or.inr hbook), if_neg (by rintro ⟨_, hb, _, _⟩; exact hbook hb)]
    · have hF : pyContains netloc "webnovel.com" = false := by
        revert hweb; cases pyContains netloc "webnovel.com" <;> simp
      rw [if_pos (Or.inr hF), if_neg (by rintro ⟨hw, _⟩; exact hweb hw)]
  refine ⟨?_, part2, part3⟩
  intro s hs
  cases hpp : pyUrlparse (pyStrip url) with
  | none =>
    rw [part2 hpp] at hs
    cases hs
  | some p =>
    obtain ⟨netloc, path⟩ := p
    rw [part3 netloc path hpp] at hs
    split at hs
    next hcond =>
      cases hs
      exact pyIsDigitStr_spec _ hcond.2.2.2
    next => cases hs

/-- C10 witness: a realistic tracked URL yields the trailing digit run
of the book segment, which is nonempty and all digits. -/
theorem extract_novel_id_from_url_spec_witness :
    ("12345" : String) ≠ "" ∧ "12345".toList.all pyCharIsDigit = true :=
  (extract_novel_id_from_url_spec " https://www.webnovel.com/book/my-novel_12345 ").1
    "12345" (by decide)
